import Mathlib

/-
Shallow embedding of src/main/usb_host_lib_main.c (uac_probe, triple-buffered
ISO URBs) and proofs about its specified properties.

External host-stack calls (alloc, submit, semaphore take) are modelled as
environment parameters recording whether each call succeeds; everything the
program itself computes is translated directly from the C source.
-/

namespace UacProbe

/-- ISO_MPS constant (line 26 of the source). -/
def ISO_MPS : Nat := 96

/-- ISO_PKTS_PER_URB constant (line 27). -/
def ISO_PKTS_PER_URB : Nat := 16

/-- NUM_ISO_URBS constant (line 28). -/
def NUM_ISO_URBS : Nat := 3

/-- The 500000 microsecond logging interval (line 109). -/
def LOG_INTERVAL_US : Int := 500000

/-- ESP_OK return code. -/
def ESP_OK : Int := 0

/-- ESP_FAIL return code. -/
def ESP_FAIL : Int := -1

/-- ESP_ERR_NO_MEM return code (0x101). -/
def ESP_ERR_NO_MEM : Int := 257

/-- usb_transfer_status_t values relevant to the program: COMPLETED is the
sole success indicator; all other enumerators are grouped as distinct
failure values. -/
inductive TransferStatus
  | completed
  | error
  | timedOut
  | canceled
  | stall
  | overflow
  | skipped
  | noDevice
deriving DecidableEq, BEq, Repr

/-- One usb_isoc_packet_desc_t: requested length, actual transferred length,
per-packet completion status. -/
structure IsocPacketDesc where
  num_bytes : Nat
  actual_num_bytes : Nat
  status : TransferStatus
deriving DecidableEq, Repr

/-- The statistics globals g_pkt_cnt, g_byte_cnt, g_last_log_us
(lines 34-36). -/
structure Stats where
  pkt_cnt : Nat
  byte_cnt : Nat
  last_log_us : Int
deriving DecidableEq, Repr

/-- The packet filter on line 99: status == COMPLETED and nonzero actual
length. -/
def countsPacket (d : IsocPacketDesc) : Bool :=
  d.status == .completed && d.actual_num_bytes != 0

/-- The per-packet loop of isoc_in_cb (lines 97-106): walks the descriptors
in order; each counting packet bumps the packet counter, adds its actual
length to the byte counter, and samples the first PCM value of its payload;
the buffer offset advances by mps for every descriptor.  `buf off` is the
16-bit sample at byte offset `off` of the data buffer. -/
def recordPhase (buf : Nat → Int) (mps : Nat) :
    List IsocPacketDesc → Nat → Stats → Int → Stats × Int
  | [], _, s, ls => (s, ls)
  | d :: ds, off, s, ls =>
    if countsPacket d then
      recordPhase buf mps ds (off + mps)
        ⟨s.pkt_cnt + 1, s.byte_cnt + d.actual_num_bytes, s.last_log_us⟩ (buf off)
    else
      recordPhase buf mps ds (off + mps) s ls

/-- The summary logged on line 111: packet count, byte count, throughput in
kilobits per second, most recent first-sample value. -/
structure Summary where
  pkts : Nat
  bytes : Nat
  kbps : ℚ
  firstSample : Int
deriving DecidableEq, Repr

/-- The throughput computation of line 110,
(g_byte_cnt * 8.0f) / ((now_us - g_last_log_us) / 1000.0f), modelled over
the rationals. -/
def throughput_kbps (bytes : Nat) (elapsed_us : Int) : ℚ :=
  ((bytes : ℚ) * 8) / ((elapsed_us : ℚ) / 1000)

/-- The flush check of lines 109-119: if more than 500000 microseconds have
elapsed since the last log, emit a summary and reset both counters and the
timestamp; otherwise leave the state untouched. -/
def maybeFlush (now_us : Int) (s : Stats) (lastSample : Int) :
    Option Summary × Stats :=
  if now_us - s.last_log_us > LOG_INTERVAL_US then
    (some ⟨s.pkt_cnt, s.byte_cnt,
           throughput_kbps s.byte_cnt (now_us - s.last_log_us), lastSample⟩,
     ⟨0, 0, now_us⟩)
  else
    (none, s)

/-- An isochronous URB as seen by the completion callback: the context value
carrying mps, the per-packet descriptor array, and the data buffer (as the
16-bit sample found at each byte offset). -/
structure IsoUrb where
  context_mps : Nat
  isoc_packet_desc : List IsocPacketDesc
  data_buffer : Nat → Int

/-- What happens to the handle at the end of isoc_in_cb (lines 121-126):
resubmitted on success, freed when resubmission fails. -/
inductive HandleOutcome
  | resubmitted
  | freed
deriving DecidableEq, Repr

/-- The mutable state the callback touches: the statistics globals and the
static last_first_sample (line 95). -/
structure CbState where
  stats : Stats
  last_first_sample : Int
deriving DecidableEq, Repr

/-- isoc_in_cb (lines 89-127): record phase over all descriptors, then one
flush check, then resubmission of the same handle, freeing it only if the
resubmission call fails.  `submit_ok` is whether usb_host_transfer_submit
succeeds on the resubmission. -/
def isoc_in_cb (t : IsoUrb) (now_us : Int) (st : CbState) (submit_ok : Bool) :
    CbState × Option Summary × HandleOutcome :=
  let r := recordPhase t.data_buffer t.context_mps t.isoc_packet_desc 0
             st.stats st.last_first_sample
  let f := maybeFlush now_us r.1 r.2
  (⟨f.2, r.2⟩, f.1, if submit_ok then .resubmitted else .freed)

/-- The environment of one ctrl_set_interface call: the return value of
usb_host_transfer_alloc, the return value of
usb_host_transfer_submit_control, and the completion status the transfer
carries after the wait loop ends. -/
structure CtrlEnv where
  alloc_ret : Int
  submit_ret : Int
  status : TransferStatus
deriving DecidableEq, Repr

/-- Observable outcome of one ctrl_set_interface call: its return value plus
how many transfer handles the call allocated and freed. -/
structure CtrlResult where
  ret : Int
  allocated : Nat
  freed : Nat
deriving DecidableEq, Repr

/-- ctrl_set_interface (lines 56-86).  ESP_RETURN_ON_ERROR returns the
failing code immediately, so an allocation failure returns before any handle
exists and a submit failure (line 72) returns after the allocation but
before reaching the usb_host_transfer_free on line 84.  When the wait loop
finishes, the function frees the handle on both the COMPLETED path (ESP_OK)
and the non-COMPLETED path (ESP_FAIL). -/
def ctrl_set_interface (env : CtrlEnv) : CtrlResult :=
  if env.alloc_ret ≠ ESP_OK then
    ⟨env.alloc_ret, 0, 0⟩
  else if env.submit_ret ≠ ESP_OK then
    ⟨env.submit_ret, 1, 0⟩
  else if env.status = .completed then
    ⟨ESP_OK, 1, 1⟩
  else
    ⟨ESP_FAIL, 1, 1⟩

/-- The observable steps of ctrl_set_interface after the setup packet is
built: draining the semaphore, submitting the control transfer, and the
wait loop alternating a 10 ms semaphore wait with a 10 ms client event
pump. -/
inductive CtrlStep
  | drainSem
  | submitCtrl
  | semWait (timeout_ms : Nat)
  | pumpClientEvents (timeout_ms : Nat)
deriving DecidableEq, Repr

/-- The wait loop of lines 75-77.  `avail i` is whether the semaphore take
at the i-th loop iteration succeeds (the completion callback has given the
semaphore by then).  Returns the iteration index at which the loop exits,
with the trace of steps executed; fuel bounds the unfolding, returning none
when the signal never arrived within the fuel. -/
def pollLoop (avail : Nat → Bool) : Nat → Nat → Option Nat × List CtrlStep
  | 0, _ => (none, [])
  | fuel + 1, i =>
    if avail i then
      (some i, [.semWait 10])
    else
      let r := pollLoop avail fuel (i + 1)
      (r.1, .semWait 10 :: .pumpClientEvents 10 :: r.2)

/-- The full observable trace of the synchronization part of
ctrl_set_interface: line 71 drains the semaphore, line 72 submits, then the
wait loop runs. -/
def ctrlTrace (avail : Nat → Bool) (fuel : Nat) : Option Nat × List CtrlStep :=
  let r := pollLoop avail fuel 0
  (r.1, .drainSem :: .submitCtrl :: r.2)

/-- Lifecycle state of one isochronous handle of the pool. -/
inductive HandleState
  | inFlight
  | freed
deriving DecidableEq, Repr

/-- The effect of one isoc_in_cb invocation on the pool, seen as a state
map: a completion callback only ever fires for an in-flight handle; the
callback then resubmits that same handle (line 122) or, if resubmission
fails, frees it (line 125).  All other handles are untouched. -/
def poolStep (pool : Nat → HandleState) (u : Nat) (submit_ok : Bool) :
    Nat → HandleState :=
  fun j =>
    if j = u ∧ pool u = .inFlight then
      (if submit_ok then .inFlight else .freed)
    else pool j

/-- A sequence of completion events (handle index, resubmission success)
applied to the pool in order. -/
def poolRun (pool : Nat → HandleState) : List (Nat × Bool) → (Nat → HandleState)
  | [] => pool
  | e :: es => poolRun (poolStep pool e.1 e.2) es

/-- One isochronous URB as filled in by start_isoc_stream (lines 136-148):
allocated buffer capacity, endpoint address, context carrying mps, total
requested byte count, and the per-packet requested lengths. -/
structure IsoXfer where
  buf_capacity : Nat
  ep_addr : Nat
  context_mps : Nat
  num_bytes : Nat
  descs : List Nat
deriving DecidableEq, Repr

/-- The URB produced by one iteration of the allocation loop of
start_isoc_stream: usb_host_transfer_alloc with buf_size = mps * 16 and 16
packet descriptors, then num_bytes = buf_size and every descriptor
requested length = mps. -/
def mkIsoXfer (ep_addr mps : Nat) : IsoXfer :=
  { buf_capacity := mps * ISO_PKTS_PER_URB
    ep_addr := ep_addr
    context_mps := mps
    num_bytes := mps * ISO_PKTS_PER_URB
    descs := List.replicate ISO_PKTS_PER_URB mps }

/-- The state start_isoc_stream leaves behind: the s_iso_urbs entries that
were filled in, how many of them were submitted (the loop of lines 152-158
submits a prefix), and how many handles the function freed (it frees
none on any path). -/
structure StreamState where
  pool : List IsoXfer
  inFlightCount : Nat
  freedCount : Nat
deriving DecidableEq, Repr

/-- The allocation loop of lines 134-149 after processing indices
0..n-1: the pool built so far and whether no allocation has failed yet.
`alloc_ok u` is whether usb_host_transfer_alloc succeeds for index u; on the
first failure ESP_RETURN_ON_ERROR exits the function, so nothing further is
allocated. -/
def allocUpTo (ep_addr mps : Nat) (alloc_ok : Nat → Bool) :
    Nat → List IsoXfer × Bool
  | 0 => ([], true)
  | n + 1 =>
    let r := allocUpTo ep_addr mps alloc_ok n
    if r.2 then
      if alloc_ok n then (r.1 ++ [mkIsoXfer ep_addr mps], true)
      else (r.1, false)
    else r

/-- The submission loop of lines 152-158 after processing indices 0..n-1:
how many URBs were submitted and whether no submission has failed yet; the
first failure returns from the function, so no later URB is submitted. -/
def submitUpTo (submit_ok : Nat → Bool) : Nat → Nat × Bool
  | 0 => (0, true)
  | n + 1 =>
    let r := submitUpTo submit_ok n
    if r.2 then
      if submit_ok n then (r.1 + 1, true)
      else (r.1, false)
    else r

/-- start_isoc_stream (lines 130-160): allocate and fill NUM_ISO_URBS URBs,
storing each in s_iso_urbs, then submit all of them; any failure returns an
error immediately with no rollback, and the function frees nothing on any
path. -/
def start_isoc_stream (ep_addr mps : Nat)
    (alloc_ok submit_ok : Nat → Bool) : Int × StreamState :=
  let a := allocUpTo ep_addr mps alloc_ok NUM_ISO_URBS
  if a.2 then
    let s := submitUpTo submit_ok NUM_ISO_URBS
    ((if s.2 then ESP_OK else ESP_FAIL), ⟨a.1, s.1, 0⟩)
  else
    (ESP_ERR_NO_MEM, ⟨a.1, 0, 0⟩)

/-- Whether the process is still running after handling an event, and if
so whether the isochronous stream was started; ESP_ERROR_CHECK aborts the
whole process when its argument is not ESP_OK. -/
inductive ProcState
  | running (streaming : Bool)
  | aborted
deriving DecidableEq, Repr

/-- Environment of one NEW_DEV event: whether usb_host_device_open and
usb_host_interface_claim succeed, the environment of the inner
ctrl_set_interface call, and the environments of the inner
start_isoc_stream call. -/
structure NewDevEnv where
  open_ok : Bool
  claim_ok : Bool
  ctrl : CtrlEnv
  stream_alloc_ok : Nat → Bool
  stream_submit_ok : Nat → Bool

/-- The NEW_DEV branch of client_event_cb (lines 166-179): device open,
interface claim and ctrl_set_interface are wrapped in ESP_ERROR_CHECK,
which aborts the process on any non-ESP_OK result; a start_isoc_stream
failure is only logged and the process keeps running. -/
def handle_new_dev (env : NewDevEnv) : ProcState :=
  if ¬ env.open_ok then .aborted
  else if ¬ env.claim_ok then .aborted
  else if (ctrl_set_interface env.ctrl).ret ≠ ESP_OK then .aborted
  else
    .running
      ((start_isoc_stream 0x82 ISO_MPS env.stream_alloc_ok
          env.stream_submit_ok).1 = ESP_OK)

/-! Helper lemmas -/

theorem recordPhase_stats (buf : Nat → Int) (mps : Nat) :
    ∀ (ds : List IsocPacketDesc) (off : Nat) (s : Stats) (ls : Int),
      (recordPhase buf mps ds off s ls).1.pkt_cnt
          = s.pkt_cnt + (ds.filter countsPacket).length ∧
      (recordPhase buf mps ds off s ls).1.byte_cnt
          = s.byte_cnt
              + ((ds.filter countsPacket).map IsocPacketDesc.actual_num_bytes).sum ∧
      (recordPhase buf mps ds off s ls).1.last_log_us = s.last_log_us := by
  intro ds
  induction ds with
  | nil =>
    intro off s ls
    simp [recordPhase]
  | cons d ds ih =>
    intro off s ls
    by_cases h : countsPacket d
    · have hrec := ih (off + mps)
        ⟨s.pkt_cnt + 1, s.byte_cnt + d.actual_num_bytes, s.last_log_us⟩ (buf off)
      refine ⟨?_, ?_, ?_⟩ <;>
        simp [recordPhase, h, List.filter_cons, hrec.1, hrec.2.1, hrec.2.2] <;>
        omega
    · have hrec := ih (off + mps) s ls
      refine ⟨?_, ?_, ?_⟩ <;>
        simp [recordPhase, h, List.filter_cons, hrec.1, hrec.2.1, hrec.2.2]

theorem allocUpTo_all_ok (ep_addr mps : Nat) (f : Nat → Bool) :
    ∀ n, (∀ u, u < n → f u = true) →
      allocUpTo ep_addr mps f n = (List.replicate n (mkIsoXfer ep_addr mps), true) := by
  intro n
  induction n with
  | zero => intro _; rfl
  | succ n ih =>
    intro h
    have hn : f n = true := h n (Nat.lt_succ_self n)
    have hr := ih (fun u hu => h u (Nat.lt_succ_of_lt hu))
    simp [allocUpTo, hr, hn, List.replicate_succ']

theorem allocUpTo_fail_at (ep_addr mps : Nat) (f : Nat → Bool) (k : Nat) :
    ∀ n, k < n → (∀ u, u < k → f u = true) → f k = false →
      allocUpTo ep_addr mps f n = (List.replicate k (mkIsoXfer ep_addr mps), false) := by
  intro n
  induction n with
  | zero => intro hk; exact absurd hk (Nat.not_lt_zero k)
  | succ n ih =>
    intro hk hpre hfk
    rcases Nat.lt_succ_iff_lt_or_eq.mp hk with hlt | rfl
    · have hr := ih hlt hpre hfk
      simp [allocUpTo, hr]
    · have hr := allocUpTo_all_ok ep_addr mps f k hpre
      simp [allocUpTo, hr, hfk]

theorem allocUpTo_pool_uniform (ep_addr mps : Nat) (f : Nat → Bool) :
    ∀ n, ∃ m, (allocUpTo ep_addr mps f n).1
        = List.replicate m (mkIsoXfer ep_addr mps) := by
  intro n
  induction n with
  | zero => exact ⟨0, rfl⟩
  | succ n ih =>
    obtain ⟨m, hm⟩ := ih
    by_cases hok : (allocUpTo ep_addr mps f n).2
    · by_cases hf : f n
      · refine ⟨m + 1, ?_⟩
        simp [allocUpTo, hok, hf, hm, List.replicate_succ']
      · exact ⟨m, by simp [allocUpTo, hok, hf, hm]⟩
    · exact ⟨m, by simp [allocUpTo, hok, hm]⟩

theorem submitUpTo_all_ok (g : Nat → Bool) :
    ∀ n, (∀ u, u < n → g u = true) → submitUpTo g n = (n, true) := by
  intro n
  induction n with
  | zero => intro _; rfl
  | succ n ih =>
    intro h
    have hn : g n = true := h n (Nat.lt_succ_self n)
    have hr := ih (fun u hu => h u (Nat.lt_succ_of_lt hu))
    simp [submitUpTo, hr, hn]

theorem submitUpTo_fail_at (g : Nat → Bool) (k : Nat) :
    ∀ n, k < n → (∀ u, u < k → g u = true) → g k = false →
      submitUpTo g n = (k, false) := by
  intro n
  induction n with
  | zero => intro hk; exact absurd hk (Nat.not_lt_zero k)
  | succ n ih =>
    intro hk hpre hgk
    rcases Nat.lt_succ_iff_lt_or_eq.mp hk with hlt | rfl
    · have hr := ih hlt hpre hgk
      simp [submitUpTo, hr]
    · have hr := submitUpTo_all_ok g k hpre
      simp [submitUpTo, hr, hgk]

/-! Claim theorems -/

/-- The URB of the C1 scenario: 16 descriptors, the first 10 completed with
actual length 96, the last 6 failed with actual length 0; mps = 96. -/
def c1Urb : IsoUrb :=
  { context_mps := 96
    isoc_packet_desc :=
      List.replicate 10 ⟨96, 96, .completed⟩ ++ List.replicate 6 ⟨96, 0, .error⟩
    data_buffer := fun _ => 0 }

/-- Claim C1: the completion routine walks the per-packet descriptors in
order and exactly the packets with COMPLETED status and nonzero actual
length contribute to the statistics — the packet counter grows by their
number, the byte counter by the sum of their actual lengths, the others
contribute nothing; the handle outcome is resubmission when the resubmit
call succeeds and freeing when it fails; and on the concrete 16-descriptor
handle with 10 completed 96-byte packets and 6 failed empty ones the byte
count grows by 960, the packet count by 10, and the handle is
resubmitted. -/
theorem isoc_cb_counts_exactly_completed_nonzero :
    (∀ (buf : Nat → Int) (mps : Nat) (ds : List IsocPacketDesc) (off : Nat)
        (s : Stats) (ls : Int),
      (recordPhase buf mps ds off s ls).1.pkt_cnt
          = s.pkt_cnt + (ds.filter countsPacket).length ∧
      (recordPhase buf mps ds off s ls).1.byte_cnt
          = s.byte_cnt
              + ((ds.filter countsPacket).map IsocPacketDesc.actual_num_bytes).sum) ∧
    (∀ (t : IsoUrb) (now : Int) (st : CbState),
      (isoc_in_cb t now st true).2.2 = .resubmitted ∧
      (isoc_in_cb t now st false).2.2 = .freed) ∧
    isoc_in_cb c1Urb 0 ⟨⟨0, 0, 0⟩, 0⟩ true = (⟨⟨10, 960, 0⟩, 0⟩, none, .resubmitted) := by
  refine ⟨?_, ?_, ?_⟩
  · intro buf mps ds off s ls
    exact ⟨(recordPhase_stats buf mps ds off s ls).1,
           (recordPhase_stats buf mps ds off s ls).2.1⟩
  · intro t now st
    exact ⟨rfl, rfl⟩
  · decide

/-- Claim C6: every handle in the pool built by start_isoc_stream is the
uniform URB whose 16 per-packet requested lengths all equal mps and whose
declared total byte count equals both their sum and mps × 16. -/
theorem iso_xfer_total_matches_descs (ep_addr mps : Nat) (f g : Nat → Bool) :
    (start_isoc_stream ep_addr mps f g).2.pool
        = List.replicate (start_isoc_stream ep_addr mps f g).2.pool.length
            (mkIsoXfer ep_addr mps) ∧
    (mkIsoXfer ep_addr mps).descs = List.replicate ISO_PKTS_PER_URB mps ∧
    (mkIsoXfer ep_addr mps).descs.sum = (mkIsoXfer ep_addr mps).num_bytes ∧
    (mkIsoXfer ep_addr mps).num_bytes = mps * ISO_PKTS_PER_URB := by
  refine ⟨?_, rfl, ?_, rfl⟩
  · obtain ⟨m, hm⟩ := allocUpTo_pool_uniform ep_addr mps f NUM_ISO_URBS
    have hpool : (start_isoc_stream ep_addr mps f g).2.pool
        = (allocUpTo ep_addr mps f NUM_ISO_URBS).1 := by
      unfold start_isoc_stream
      by_cases ha : (allocUpTo ep_addr mps f NUM_ISO_URBS).2 <;> simp [ha]
    rw [hpool, hm]
    simp
  · simp [mkIsoXfer, List.sum_replicate, smul_eq_mul]
    ring

/-- Claim C7: when start_isoc_stream succeeds, all 3 handles were allocated
with buffer capacity mps × 16 bytes, stored in the pool, and submitted, so
the pool holds 3 handles and all 3 are in flight when the function
returns. -/
theorem start_stream_success_full_pipeline (ep_addr mps : Nat)
    (f g : Nat → Bool)
    (ha : ∀ u, u < NUM_ISO_URBS → f u = true)
    (hs : ∀ u, u < NUM_ISO_URBS → g u = true) :
    (start_isoc_stream ep_addr mps f g).1 = ESP_OK ∧
    (start_isoc_stream ep_addr mps f g).2.pool
        = List.replicate NUM_ISO_URBS (mkIsoXfer ep_addr mps) ∧
    (start_isoc_stream ep_addr mps f g).2.pool.length = 3 ∧
    (start_isoc_stream ep_addr mps f g).2.inFlightCount = 3 ∧
    (mkIsoXfer ep_addr mps).buf_capacity = mps * 16 := by
  have h1 := allocUpTo_all_ok ep_addr mps f NUM_ISO_URBS ha
  have h2 := submitUpTo_all_ok g NUM_ISO_URBS hs
  refine ⟨?_, ?_, ?_, ?_, rfl⟩ <;> simp [start_isoc_stream, h1, h2] <;> rfl

/-- Witness for start_stream_success_full_pipeline at endpoint 0x82,
mps 96, with every allocation and submission succeeding. -/
theorem start_stream_success_full_pipeline_witness :
    (start_isoc_stream 130 96 (fun _ => true) (fun _ => true)).1 = ESP_OK ∧
    (start_isoc_stream 130 96 (fun _ => true) (fun _ => true)).2.pool
        = List.replicate NUM_ISO_URBS (mkIsoXfer 130 96) ∧
    (start_isoc_stream 130 96 (fun _ => true) (fun _ => true)).2.pool.length = 3 ∧
    (start_isoc_stream 130 96 (fun _ => true) (fun _ => true)).2.inFlightCount = 3 ∧
    (mkIsoXfer 130 96).buf_capacity = 96 * 16 :=
  start_stream_success_full_pipeline 130 96 (fun _ => true) (fun _ => true)
    (fun _ _ => rfl) (fun _ _ => rfl)

/-- Claim C10: start_isoc_stream performs no rollback.  If the k-th
allocation fails, it returns an error while the k handles already allocated
stay in the pool and nothing is freed; if the k-th submission fails, it
returns an error while the k handles already submitted stay in flight and
nothing is freed. -/
theorem start_stream_no_rollback (ep_addr mps k : Nat) (f g : Nat → Bool) :
    (k < NUM_ISO_URBS → (∀ u, u < k → f u = true) → f k = false →
      (start_isoc_stream ep_addr mps f g).1 ≠ ESP_OK ∧
      (start_isoc_stream ep_addr mps f g).2.pool
          = List.replicate k (mkIsoXfer ep_addr mps) ∧
      (start_isoc_stream ep_addr mps f g).2.freedCount = 0) ∧
    (k < NUM_ISO_URBS → (∀ u, u < NUM_ISO_URBS → f u = true) →
        (∀ u, u < k → g u = true) → g k = false →
      (start_isoc_stream ep_addr mps f g).1 ≠ ESP_OK ∧
      (start_isoc_stream ep_addr mps f g).2.pool
          = List.replicate NUM_ISO_URBS (mkIsoXfer ep_addr mps) ∧
      (start_isoc_stream ep_addr mps f g).2.inFlightCount = k ∧
      (start_isoc_stream ep_addr mps f g).2.freedCount = 0) := by
  constructor
  · intro hk hpre hfk
    have h1 := allocUpTo_fail_at ep_addr mps f k NUM_ISO_URBS hk hpre hfk
    refine ⟨?_, ?_, ?_⟩ <;> simp [start_isoc_stream, h1]
    decide
  · intro hk hall hpre hgk
    have h1 := allocUpTo_all_ok ep_addr mps f NUM_ISO_URBS hall
    have h2 := submitUpTo_fail_at g k NUM_ISO_URBS hk hpre hgk
    refine ⟨?_, ?_, ?_, ?_⟩ <;> simp [start_isoc_stream, h1, h2]
    decide

/-- Witness for start_stream_no_rollback: the second allocation fails, the
one handle already allocated stays in the pool and nothing is freed. -/
theorem start_stream_no_rollback_witness :
    (start_isoc_stream 130 96 (fun u => decide (u = 0)) (fun _ => true)).1
        ≠ ESP_OK ∧
    (start_isoc_stream 130 96 (fun u => decide (u = 0)) (fun _ => true)).2.pool
        = List.replicate 1 (mkIsoXfer 130 96) ∧
    (start_isoc_stream 130 96 (fun u => decide (u = 0))
        (fun _ => true)).2.freedCount = 0 :=
  (start_stream_no_rollback 130 96 1 (fun u => decide (u = 0))
      (fun _ => true)).1 (by decide)
    (fun u hu => by
      have : u = 0 := by omega
      simp [this])
    (by decide)

theorem poolStep_preserves_freed (pool : Nat → HandleState) (v : Nat)
    (ok : Bool) (u : Nat) (h : pool u = .freed) :
    poolStep pool v ok u = .freed := by
  unfold poolStep
  by_cases hc : u = v ∧ pool v = HandleState.inFlight
  · rcases hc with ⟨rfl, hc2⟩
    rw [h] at hc2
    simp at hc2
  · simp [hc, h]

/-- Claim C2: a handle is in exactly one of the two lifecycle states; when
resubmission of a completed in-flight handle fails, that handle alone
becomes freed while every other handle keeps its state, and a successful
resubmission keeps it in flight; and a freed handle stays freed under every
later sequence of completion events (it is out of the pool permanently). -/
theorem pool_handle_states_exclusive :
    (∀ st : HandleState,
        (st = .inFlight ∨ st = .freed) ∧ ¬(st = .inFlight ∧ st = .freed)) ∧
    (∀ (pool : Nat → HandleState) (u : Nat), pool u = .inFlight →
        poolStep pool u false u = .freed ∧
        poolStep pool u true u = .inFlight ∧
        (∀ j, j ≠ u → poolStep pool u false j = pool j)) ∧
    (∀ (pool : Nat → HandleState) (es : List (Nat × Bool)) (u : Nat),
        pool u = .freed → poolRun pool es u = .freed) := by
  refine ⟨?_, ?_, ?_⟩
  · intro st
    cases st <;> simp
  · intro pool u h
    refine ⟨?_, ?_, ?_⟩
    · simp [poolStep, h]
    · simp [poolStep, h]
    · intro j hj
      simp [poolStep, hj]
  · intro pool es
    induction es generalizing pool with
    | nil => intro u h; exact h
    | cons e es ih =>
      intro u h
      exact ih (poolStep pool e.1 e.2) u (poolStep_preserves_freed pool e.1 e.2 u h)

/-- Witness for pool_handle_states_exclusive: a failed resubmission frees
the handle, and a freed handle stays freed across later events. -/
theorem pool_handle_states_exclusive_witness :
    poolStep (fun _ => HandleState.inFlight) 0 false 0 = HandleState.freed ∧
    poolRun (fun _ => HandleState.freed) [(0, true), (1, false)] 0
        = HandleState.freed :=
  ⟨(pool_handle_states_exclusive.2.1 (fun _ => HandleState.inFlight) 0 rfl).1,
   pool_handle_states_exclusive.2.2 (fun _ => HandleState.freed)
     [(0, true), (1, false)] 0 rfl⟩

/-- Claim C3 counterexample: when usb_host_transfer_submit_control fails,
ESP_RETURN_ON_ERROR returns from ctrl_set_interface before the
usb_host_transfer_free call is reached, so the one allocated handle is
never freed — the claim that every path frees the handle is false. -/
theorem ctrl_submit_fail_leaks :
    (ctrl_set_interface ⟨ESP_OK, ESP_FAIL, .completed⟩).allocated = 1 ∧
    (ctrl_set_interface ⟨ESP_OK, ESP_FAIL, .completed⟩).freed = 0 := by
  decide

/-- Claim C3 amended: when allocation and submission both succeed, exactly
one handle is allocated and it is freed before returning, on the success
path and on the completion-status-failure path alike; when allocation fails
nothing is allocated; but when submission fails the allocated handle is not
freed — it leaks. -/
theorem ctrl_handle_balance (env : CtrlEnv) :
    (env.alloc_ret = ESP_OK → env.submit_ret = ESP_OK →
        (ctrl_set_interface env).allocated = 1 ∧
        (ctrl_set_interface env).freed = 1 ∧
        ((ctrl_set_interface env).ret = ESP_OK ↔ env.status = .completed)) ∧
    (env.alloc_ret = ESP_OK → env.submit_ret ≠ ESP_OK →
        (ctrl_set_interface env).allocated = 1 ∧
        (ctrl_set_interface env).freed = 0 ∧
        (ctrl_set_interface env).ret = env.submit_ret) ∧
    (env.alloc_ret ≠ ESP_OK →
        (ctrl_set_interface env).allocated = 0 ∧
        (ctrl_set_interface env).freed = 0) := by
  refine ⟨?_, ?_, ?_⟩
  · intro h1 h2
    by_cases hs : env.status = .completed <;>
      simp [ctrl_set_interface, h1, h2, hs, ESP_OK, ESP_FAIL]
  · intro h1 h2
    simp [ctrl_set_interface, h1, h2]
  · intro h1
    simp [ctrl_set_interface, h1]

/-- Witness for ctrl_handle_balance on the fully successful path: one
handle allocated, one freed. -/
theorem ctrl_handle_balance_witness :
    (ctrl_set_interface ⟨ESP_OK, ESP_OK, .completed⟩).allocated = 1 ∧
    (ctrl_set_interface ⟨ESP_OK, ESP_OK, .completed⟩).freed = 1 :=
  ⟨((ctrl_handle_balance ⟨ESP_OK, ESP_OK, .completed⟩).1 rfl rfl).1,
   ((ctrl_handle_balance ⟨ESP_OK, ESP_OK, .completed⟩).1 rfl rfl).2.1⟩

/-- Claim C4 counterexample: an interface-claim failure in the NEW_DEV
handler goes through ESP_ERROR_CHECK, which aborts the whole process — the
process does not keep running as the claim states. -/
theorem claim_fail_aborts_process :
    handle_new_dev
        ⟨true, false, ⟨ESP_OK, ESP_OK, .completed⟩, fun _ => true, fun _ => true⟩
      = .aborted := by
  decide

/-- Claim C4 amended: in the NEW_DEV handler, a device-open failure, an
interface-claim failure or a ctrl_set_interface failure aborts the process
via ESP_ERROR_CHECK; only a start_isoc_stream failure is merely logged,
leaving the process running (with the stream not started). -/
theorem new_dev_failure_modes (env : NewDevEnv) :
    (¬ env.open_ok → handle_new_dev env = .aborted) ∧
    (¬ env.claim_ok → handle_new_dev env = .aborted) ∧
    ((ctrl_set_interface env.ctrl).ret ≠ ESP_OK →
        env.open_ok → env.claim_ok → handle_new_dev env = .aborted) ∧
    (env.open_ok → env.claim_ok → (ctrl_set_interface env.ctrl).ret = ESP_OK →
        handle_new_dev env ≠ .aborted) := by
  refine ⟨?_, ?_, ?_, ?_⟩
  · intro h
    simp [handle_new_dev, h]
  · intro h
    by_cases ho : env.open_ok <;> simp [handle_new_dev, h, ho]
  · intro h ho hc
    simp [handle_new_dev, h, ho, hc]
  · intro ho hc h
    simp [handle_new_dev, h, ho, hc]

/-- Witness for new_dev_failure_modes: with open, claim and the control
transfer all succeeding but the stream-start allocation failing, the
process is not aborted. -/
theorem new_dev_failure_modes_witness :
    handle_new_dev
        ⟨true, true, ⟨ESP_OK, ESP_OK, .completed⟩, fun _ => false, fun _ => true⟩
      ≠ .aborted :=
  (new_dev_failure_modes
      ⟨true, true, ⟨ESP_OK, ESP_OK, .completed⟩,
       fun _ => false, fun _ => true⟩).2.2.2
    (by decide) (by decide) (by decide)

/-- Claim C5: a flush resets both counters to zero and sets the last-flush
timestamp to the current time; the completion routine makes at most one
flush decision per invocation; hence a second flush check within one
interval of a flush, with no intervening record, emits nothing. -/
theorem flush_resets_and_at_most_once (now : Int) (s : Stats) (ls : Int) :
    ((maybeFlush now s ls).1.isSome → (maybeFlush now s ls).2 = ⟨0, 0, now⟩) ∧
    (∀ (now2 ls2 : Int), (maybeFlush now s ls).1.isSome →
        now2 - now ≤ LOG_INTERVAL_US →
        (maybeFlush now2 (maybeFlush now s ls).2 ls2).1 = none) ∧
    (∀ (t : IsoUrb) (st : CbState) (ok : Bool),
        (isoc_in_cb t now st ok).2.1.toList.length ≤ 1) := by
  refine ⟨?_, ?_, ?_⟩
  · intro h
    by_cases hc : now - s.last_log_us > LOG_INTERVAL_US
    · simp [maybeFlush, hc]
    · simp [maybeFlush, hc] at h
  · intro now2 ls2 h hle
    simp only [LOG_INTERVAL_US] at hle
    by_cases hc : (500000 : Int) < now - s.last_log_us
    · have hn : ¬ (500000 : Int) < now2 - now := by omega
      simp [maybeFlush, LOG_INTERVAL_US, hc, hn]
    · simp [maybeFlush, LOG_INTERVAL_US, hc] at h
  · intro t st ok
    cases hopt : (isoc_in_cb t now st ok).2.1 <;> simp

/-- Witness for flush_resets_and_at_most_once: a flush at 600000 us resets
the state, and a second check 100000 us later emits nothing. -/
theorem flush_resets_and_at_most_once_witness :
    (maybeFlush 600000 ⟨5, 100, 0⟩ 0).2 = ⟨0, 0, 600000⟩ ∧
    (maybeFlush 700000 (maybeFlush 600000 ⟨5, 100, 0⟩ 0).2 0).1 = none :=
  ⟨(flush_resets_and_at_most_once 600000 ⟨5, 100, 0⟩ 0).1 (by decide),
   (flush_resets_and_at_most_once 600000 ⟨5, 100, 0⟩ 0).2.1 700000 0
     (by decide) (by decide)⟩

/-- Claim C9: a summary is emitted only when the elapsed time since the
last flush exceeds 500000 us, and its throughput equals
8 × bytes / elapsed-milliseconds (the float expression of line 110,
modelled exactly over the rationals); concretely, at 500001 us elapsed with
50 packets and 4800 bytes accumulated, one summary is emitted with byte
count 4800 and throughput within 0.1 of 76.8 kbit/s, and both counters are
zero afterwards. -/
theorem flush_throughput_formula (now : Int) (s : Stats) (ls : Int) :
    ((maybeFlush now s ls).1.isSome → now - s.last_log_us > LOG_INTERVAL_US) ∧
    ((maybeFlush now s ls).1.isSome →
        (maybeFlush now s ls).1
          = some ⟨s.pkt_cnt, s.byte_cnt,
              ((s.byte_cnt : ℚ) * 8) / (((now - s.last_log_us : Int) : ℚ) / 1000),
              ls⟩) ∧
    ((maybeFlush 500001 ⟨50, 4800, 0⟩ 7).1
        = some ⟨50, 4800, 38400000 / 500001, 7⟩ ∧
      |(38400000 / 500001 : ℚ) - 768 / 10| < 1 / 10 ∧
      (maybeFlush 500001 ⟨50, 4800, 0⟩ 7).2 = ⟨0, 0, 500001⟩) := by
  refine ⟨?_, ?_, ?_, ?_, ?_⟩
  · intro h
    by_cases hc : now - s.last_log_us > LOG_INTERVAL_US
    · exact hc
    · simp [maybeFlush, hc] at h
  · intro h
    by_cases hc : now - s.last_log_us > LOG_INTERVAL_US
    · simp [maybeFlush, hc, throughput_kbps]
    · simp [maybeFlush, hc] at h
  · norm_num [maybeFlush, LOG_INTERVAL_US, throughput_kbps]
  · rw [abs_lt]
    constructor <;> norm_num
  · norm_num [maybeFlush, LOG_INTERVAL_US]

/-- Witness for flush_throughput_formula: the concrete flush at 500001 us
elapsed is emitted, so the elapsed time indeed exceeds the interval. -/
theorem flush_throughput_formula_witness :
    (500001 : Int) - (Stats.mk 50 4800 0).last_log_us > LOG_INTERVAL_US :=
  (flush_throughput_formula 500001 ⟨50, 4800, 0⟩ 7).1 (by decide)

theorem pollLoop_finds (avail : Nat → Bool) :
    ∀ (fuel i k : Nat), k < fuel → avail (i + k) = true →
      ∃ m, m ≤ i + k ∧ (pollLoop avail fuel i).1 = some m := by
  intro fuel
  induction fuel with
  | zero => intro i k hk _; exact absurd hk (Nat.not_lt_zero k)
  | succ f ih =>
    intro i k hk hav
    by_cases h : avail i
    · exact ⟨i, Nat.le_add_right i k, by simp [pollLoop, h]⟩
    · cases k with
      | zero =>
        rw [Nat.add_zero] at hav
        exact absurd hav h
      | succ k2 =>
        obtain ⟨m, hm, hres⟩ := ih (i + 1) k2 (Nat.lt_of_succ_lt_succ hk)
          (by rw [show i + 1 + k2 = i + (k2 + 1) from by omega]; exact hav)
        refine ⟨m, by omega, ?_⟩
        simp [pollLoop, h, hres]

theorem pollLoop_steps_shape (avail : Nat → Bool) :
    ∀ (fuel i : Nat) (st : CtrlStep), st ∈ (pollLoop avail fuel i).2 →
      st = CtrlStep.semWait 10 ∨ st = CtrlStep.pumpClientEvents 10 := by
  intro fuel
  induction fuel with
  | zero => intro i st h; simp [pollLoop] at h
  | succ f ih =>
    intro i st h
    by_cases ha : avail i
    · simp [pollLoop, ha] at h
      exact Or.inl h
    · simp [pollLoop, ha] at h
      rcases h with h | h | h
      · exact Or.inl h
      · exact Or.inr h
      · exact ih (i + 1) st h

/-- Claim C8: the blocking control transfer first drains the semaphore,
then submits, then loops doing a 10 ms semaphore wait and, on each timeout,
a 10 ms client event pump; if the completion signal is available from loop
iteration n on, the loop returns at some iteration m ≤ n, so it exits
within a bounded number of polling iterations once the signal arrives and
never blocks past it. -/
theorem ctrl_wait_loop_bounded (avail : Nat → Bool) (n fuel : Nat)
    (hn : avail n = true) :
    (ctrlTrace avail fuel).2.take 2
        = [CtrlStep.drainSem, CtrlStep.submitCtrl] ∧
    (∀ st ∈ (pollLoop avail fuel 0).2,
        st = CtrlStep.semWait 10 ∨ st = CtrlStep.pumpClientEvents 10) ∧
    (∃ m, m ≤ n ∧ (pollLoop avail (n + 1) 0).1 = some m) := by
  refine ⟨rfl, ?_, ?_⟩
  · intro st h
    exact pollLoop_steps_shape avail fuel 0 st h
  · obtain ⟨m, hm, hres⟩ := pollLoop_finds avail (n + 1) 0 n (Nat.lt_succ_self n)
      (by simpa using hn)
    exact ⟨m, by simpa using hm, hres⟩

/-- Witness for ctrl_wait_loop_bounded with the signal arriving at
iteration 2: the trace starts with the drain and the submission. -/
theorem ctrl_wait_loop_bounded_witness :
    (ctrlTrace (fun i => decide (2 ≤ i)) 5).2.take 2
        = [CtrlStep.drainSem, CtrlStep.submitCtrl] :=
  (ctrl_wait_loop_bounded (fun i => decide (2 ≤ i)) 2 5 (by decide)).1

end UacProbe
